import Mathlib

/-!
Verification of the VEKOS boot sequence (`src/main.rs`).

The kernel entry point `kernel_main` is a straight-line boot sequence: it
initializes the GDT, memory manager, heap, IDT, scheduler, syscalls, RTC,
filesystem, the init process, the framebuffer/graphics stack, and finally
enters an idle loop.  At five points it calls the boot-verification
driver's `verify_stage_vmk` and, for two of the resulting proofs, registers
them with the global verification registry.  We embed `kernel_main` as a
function from the outcomes of its fallible steps to the list of observable
events it performs, in program order, truncated at the first `panic!`.
-/

namespace Vekos

/-- Modelled from the spec: the `boot_verification` module is not under
`src/`; the spec's §4.6 state machine lists the stages
`Start → GDTLoaded → IDTLoaded → MemoryInitialized → HeapInitialized →
SchedulerReady → FilesystemReady → Complete`.  `kernel_main` itself only
names `GDTLoaded`, `IDTLoaded`, `MemoryInitialized`, `HeapInitialized` and
`Complete`. -/
inductive BootStage
  | Start
  | GDTLoaded
  | IDTLoaded
  | MemoryInitialized
  | HeapInitialized
  | SchedulerReady
  | FilesystemReady
  | Complete
  deriving DecidableEq

/-- Position of a stage in the spec's state-machine order. -/
def stageIdx : BootStage → Nat
  | .Start => 0
  | .GDTLoaded => 1
  | .IDTLoaded => 2
  | .MemoryInitialized => 3
  | .HeapInitialized => 4
  | .SchedulerReady => 5
  | .FilesystemReady => 6
  | .Complete => 7

/-- The framebuffer description built literally in `kernel_main`
(src/main.rs lines 276-290); field list as in the struct literal. -/
structure FramebufferInfo where
  width : Nat
  height : Nat
  pitch : Nat
  bpp : Nat
  memory_model : Nat
  red_mask_size : Nat
  red_mask_pos : Nat
  green_mask_size : Nat
  green_mask_pos : Nat
  blue_mask_size : Nat
  blue_mask_pos : Nat
  page_flip_supported : Bool
  current_page : Nat
  deriving DecidableEq

/-- The graphics HAL configuration built literally in `kernel_main`
(src/main.rs lines 325-331). -/
structure FramebufferConfig where
  width : Nat
  height : Nat
  pitch : Nat
  bpp : Nat
  physical_buffer : Nat
  deriving DecidableEq

/-- The parts of the boot loader's `BootInfo` that `kernel_main` reads:
`physical_memory_offset` and `memory_map` (the memory map is kept abstract
as a list of region descriptors). -/
structure BootInfo where
  physical_memory_offset : Nat
  memory_map : List Nat
  deriving DecidableEq

/-- The hard-coded `FramebufferInfo` literal of src/main.rs lines 276-290. -/
def bootFramebufferInfo : FramebufferInfo :=
  { width := 800
    height := 600
    pitch := 800 * 4
    bpp := 32
    memory_model := 1
    red_mask_size := 8
    red_mask_pos := 16
    green_mask_size := 8
    green_mask_pos := 8
    blue_mask_size := 8
    blue_mask_pos := 0
    page_flip_supported := true
    current_page := 0 }

/-- The hard-coded graphics HAL `FramebufferConfig` literal of src/main.rs
lines 325-331. -/
def bootGraphicsConfig : FramebufferConfig :=
  { width := 800
    height := 600
    pitch := 800 * 4
    bpp := 32
    physical_buffer := 0xfd000000 }

/-- Observable actions `kernel_main` performs, in program order.  A
`panicked` event is terminal: the Rust `panic!` macro diverges, so the
trace is truncated there. -/
inductive BootEvent
  | startBoot
  | gdtInit
  | memoryManagerNew (physical_memory_offset : Nat) (memory_map : List Nat)
  | initHeap
  | setMemoryManager
  | verifyStage (s : BootStage)
  | registerProof (s : BootStage)
  | hashInit
  | idtInit
  | schedulerNew
  | syscallInit
  | timeInit
  | fsInit
  | lockProofStorage
  | replayProofStorage
  | createInitProcess
  | addProcess
  | framebufferNew (info : FramebufferInfo) (physical_buffer : Nat)
  | graphicsHALNew (config : FramebufferConfig)
  | vbeInit
  | shellStart
  | idleLoopEnter
  | logError (msg : String)
  | panicked (msg : String)
  deriving DecidableEq

/-- Shallow embedding of `kernel_main` (src/main.rs lines 139-403) as the
trace of events it performs.  Parameters are the outcomes of its fallible
steps, in call order: `heapOk` is `init_heap`'s result, `okGdt`/`okIdt`/
`okMem`/`okHeap`/`okComplete` are the results of the five
`verify_stage_vmk` calls, and `procOk` is `Process::new`'s result.  The
`MEMORY_MANAGER` and `SCHEDULER` globals are threaded as `Option Unit`
values set exactly where the source sets them, so the `None` panic
branches of the init-process block appear in the embedding exactly as in
the source. -/
def kernel_main (bi : BootInfo) (heapOk okGdt okIdt okMem okHeap procOk okComplete : Bool) :
    List BootEvent :=
  let pre := [BootEvent.startBoot, BootEvent.gdtInit,
    BootEvent.memoryManagerNew bi.physical_memory_offset bi.memory_map, BootEvent.initHeap]
  if heapOk then
    let mmSet : Option Unit := some ()
    let ev1 := pre ++ [BootEvent.setMemoryManager, BootEvent.verifyStage BootStage.GDTLoaded]
    if okGdt then
      let ev2 := ev1 ++ [BootEvent.registerProof BootStage.GDTLoaded, BootEvent.hashInit,
        BootEvent.idtInit, BootEvent.verifyStage BootStage.IDTLoaded]
      if okIdt then
        let ev3 := ev2 ++ [BootEvent.verifyStage BootStage.MemoryInitialized]
        if okMem then
          let ev4 := ev3 ++ [BootEvent.registerProof BootStage.MemoryInitialized,
            BootEvent.verifyStage BootStage.HeapInitialized]
          if okHeap then
            let schedSet : Option Unit := some ()
            let ev5 := ev4 ++ [BootEvent.schedulerNew, BootEvent.syscallInit,
              BootEvent.timeInit, BootEvent.fsInit, BootEvent.lockProofStorage]
            match schedSet, mmSet with
            | some _, some _ =>
              if procOk then
                let ev6 := ev5 ++ [BootEvent.createInitProcess, BootEvent.addProcess]
                let ev7 := ev6 ++ (match mmSet with
                  | some _ => [BootEvent.framebufferNew bootFramebufferInfo 0xfd000000]
                  | none => [])
                let ev8 := ev7 ++ [BootEvent.graphicsHALNew bootGraphicsConfig,
                  BootEvent.vbeInit, BootEvent.verifyStage BootStage.Complete]
                if okComplete then
                  ev8 ++ [BootEvent.shellStart, BootEvent.idleLoopEnter]
                else
                  ev8 ++ [BootEvent.logError "Final boot verification failed",
                    BootEvent.panicked "Final boot verification failed with error"]
              else
                ev5 ++ [BootEvent.logError "Final boot verification failed",
                  BootEvent.panicked "Final boot verification failed with error"]
            | some _, none =>
              ev5 ++ [BootEvent.panicked "Memory manager is None when creating init process"]
            | none, _ =>
              ev5 ++ [BootEvent.panicked "Scheduler is None when creating init process"]
          else
            ev4 ++ [BootEvent.logError "Heap verification failed",
              BootEvent.panicked "Heap initialization failed with verification error"]
        else
          ev3 ++ [BootEvent.panicked "Memory initialization verification failed"]
      else
        ev2 ++ [BootEvent.logError "IDT verification failed",
          BootEvent.panicked "IDT initialization failed with verification error"]
    else
      ev1 ++ [BootEvent.panicked "GDT verification failed"]
  else
    pre ++ [BootEvent.panicked "Failed to initialize heap"]

/-- The clean boot: every fallible step succeeds. -/
def cleanBoot (bi : BootInfo) : List BootEvent :=
  kernel_main bi true true true true true true true

/-- Stages passed to `verify_stage_vmk`, in trace order. -/
def verifiedStages (t : List BootEvent) : List BootStage :=
  t.filterMap fun e => match e with
    | .verifyStage s => some s
    | _ => none

/-- Stages whose proof was handed to `VERIFICATION_REGISTRY.register_proof`,
in trace order. -/
def registeredStages (t : List BootEvent) : List BootStage :=
  t.filterMap fun e => match e with
    | .registerProof s => some s
    | _ => none

/-- Messages passed to `boot_verifier.log_error`, in trace order. -/
def logErrors (t : List BootEvent) : List String :=
  t.filterMap fun e => match e with
    | .logError m => some m
    | _ => none

/-- Framebuffer configurations passed to `framebuffer::Framebuffer::new`,
with the physical buffer address, in trace order. -/
def fbConfigs (t : List BootEvent) : List (FramebufferInfo × Nat) :=
  t.filterMap fun e => match e with
    | .framebufferNew i p => some (i, p)
    | _ => none

/-- Modelled from the spec: the `verification` module is not under `src/`.
Per §4.4 the registry starts with `next_op_id = 1` and each successful
`register_proof` increments it by one; only that counter is modelled
here. -/
structure VerificationRegistry where
  next_op_id : Nat
  deriving DecidableEq

/-- Modelled from the spec: a successful `register_proof` increments
`next_op_id`. -/
def VerificationRegistry.register_proof (r : VerificationRegistry) : VerificationRegistry :=
  { next_op_id := r.next_op_id + 1 }

/-- The registry state after processing a boot trace: the fresh registry
(`next_op_id = 1`) folded over every `register_proof` call in the trace. -/
def registryAfter (t : List BootEvent) : VerificationRegistry :=
  t.foldl (fun r e => match e with
    | .registerProof _ => r.register_proof
    | _ => r) { next_op_id := 1 }

/-- Whether an event is a `panic!`. -/
def isPanicEvent : BootEvent → Bool
  | .panicked _ => true
  | _ => false

/-- Whether a trace ends in a `panic!` (the boot aborted). -/
def endsInPanic (t : List BootEvent) : Bool :=
  match t.getLast? with
  | some e => isPanicEvent e
  | none => false

/-- A trace aborted at stage `s`: it ends in a panic, never reaches the
shell or the idle loop, and verifies no stage later than `s` in the
state-machine order. -/
def abortedAfter (t : List BootEvent) (s : BootStage) : Prop :=
  endsInPanic t = true ∧
    BootEvent.shellStart ∉ t ∧
    BootEvent.idleLoopEnter ∉ t ∧
    ((verifiedStages t).all fun s' => stageIdx s' ≤ stageIdx s) = true

/-- A concrete boot-loader input used to instantiate closed statements. -/
def bi0 : BootInfo := { physical_memory_offset := 0, memory_map := [] }

/-- A second, different boot-loader input. -/
def bi1 : BootInfo := { physical_memory_offset := 0x1000, memory_map := [7, 9] }

/-- Models `u64::saturating_sub` over the in-range values that occur in the
idle loop: truncated natural subtraction. -/
def saturating_sub (a b : Nat) : Nat := a - b

/-- One iteration of the idle loop at src/main.rs lines 392-402: schedule
exactly when `current_ticks.saturating_sub(last_schedule) >= 10` and the
scheduler is present; returns whether `schedule()` ran together with the
updated `last_schedule`. -/
def idleStep (current_ticks last_schedule : Nat) (schedulerSome : Bool) : Bool × Nat :=
  if saturating_sub current_ticks last_schedule ≥ 10 then
    if schedulerSome then (true, current_ticks) else (false, last_schedule)
  else
    (false, last_schedule)

/-- The error entries the panic handler prints (src/main.rs lines 417-424):
for `i in 0..error_count.min(32)`, print `errors[i]` when it is `Some`.
The fixed 32-slot ring array is modelled as a list read with default
`none`. -/
def panicDump (errors : List (Option String)) (error_count : Nat) : List String :=
  if error_count > 0 then
    (List.range (min error_count 32)).filterMap fun i => errors.getD i none
  else
    []

/-- Outcome type of the panic handler: its only constructor is `halted`,
mirroring that the handler ends in `loop {}` and never returns. -/
inductive PanicOutcome
  | halted (printed : List String)
  deriving DecidableEq

/-- The panic handler (src/main.rs lines 406-430): dump the error ring to
serial, then halt. -/
def panicHandler (errors : List (Option String)) (error_count : Nat) : PanicOutcome :=
  PanicOutcome.halted (panicDump errors error_count)

end Vekos

namespace Vekos

/-- Claim C1 counterexample: on the clean boot, `kernel_main` calls
`verify_stage_vmk` for only 5 stages, not 7; `SchedulerReady` and
`FilesystemReady` are never verified; and only 2 proofs reach
`register_proof`, so the registry's `next_op_id` ends at 3, not 8. -/
theorem clean_boot_stage_count_cx :
    (verifiedStages (cleanBoot bi0)).length = 5 ∧
    ¬ (verifiedStages (cleanBoot bi0)).length = 7 ∧
    BootEvent.verifyStage BootStage.SchedulerReady ∉ cleanBoot bi0 ∧
    BootEvent.verifyStage BootStage.FilesystemReady ∉ cleanBoot bi0 ∧
    (registryAfter (cleanBoot bi0)).next_op_id = 3 ∧
    ¬ (registryAfter (cleanBoot bi0)).next_op_id = 8 := by
  decide

/-- Claim C1 (amended): a clean boot advances the boot-verification driver
through exactly the five stage transitions `GDTLoaded, IDTLoaded,
MemoryInitialized, HeapInitialized, Complete`, one `verify_stage_vmk` call
per stage; of the 5 Boot proofs produced, only the `GDTLoaded` and
`MemoryInitialized` proofs are registered, so `next_op_id` ends at 3. -/
theorem clean_boot_five_stages (bi : BootInfo) :
    verifiedStages (cleanBoot bi) =
      [BootStage.GDTLoaded, BootStage.IDTLoaded, BootStage.MemoryInitialized,
        BootStage.HeapInitialized, BootStage.Complete] ∧
    registeredStages (cleanBoot bi) = [BootStage.GDTLoaded, BootStage.MemoryInitialized] ∧
    (registryAfter (cleanBoot bi)).next_op_id = 3 :=
  ⟨rfl, rfl, rfl⟩

/-- Claim C2 counterexample: on the clean boot the `IDTLoaded`
verification succeeds and its proof is produced, but `register_proof` is
never called for it (nor for `HeapInitialized` or `Complete`): the proof
is dropped after being printed to serial. -/
theorem idt_proof_not_registered_cx :
    BootEvent.verifyStage BootStage.IDTLoaded ∈ cleanBoot bi0 ∧
    BootEvent.registerProof BootStage.IDTLoaded ∉ cleanBoot bi0 ∧
    BootEvent.registerProof BootStage.HeapInitialized ∉ cleanBoot bi0 ∧
    BootEvent.registerProof BootStage.Complete ∉ cleanBoot bi0 := by
  decide

/-- Claim C2 (amended): of the boot proofs successfully produced by
`verify_stage_vmk` in `kernel_main`, exactly the `GDTLoaded` and
`MemoryInitialized` proofs are submitted to
`VERIFICATION_REGISTRY.register_proof`; the `IDTLoaded`,
`HeapInitialized` and `Complete` proofs are dropped without
registration. -/
theorem registered_boot_stages (bi : BootInfo) :
    registeredStages (cleanBoot bi) = [BootStage.GDTLoaded, BootStage.MemoryInitialized] ∧
    BootEvent.registerProof BootStage.IDTLoaded ∉ cleanBoot bi ∧
    BootEvent.registerProof BootStage.HeapInitialized ∉ cleanBoot bi ∧
    BootEvent.registerProof BootStage.Complete ∉ cleanBoot bi :=
  ⟨rfl, by simp [cleanBoot, kernel_main], by simp [cleanBoot, kernel_main],
    by simp [cleanBoot, kernel_main]⟩

/-- Claim C3: for every boot stage verified in `kernel_main`, if that
stage's `verify_stage_vmk` call returns an error, the boot aborts: the
trace ends in a `panic!`, the shell and idle loop are never reached, and
no later stage is verified. -/
theorem stage_verification_failure_aborts (bi : BootInfo)
    (heapOk okGdt okIdt okMem okHeap procOk okComplete : Bool) :
    (okGdt = false →
      BootEvent.verifyStage BootStage.GDTLoaded ∈
        kernel_main bi heapOk okGdt okIdt okMem okHeap procOk okComplete →
      abortedAfter (kernel_main bi heapOk okGdt okIdt okMem okHeap procOk okComplete)
        BootStage.GDTLoaded) ∧
    (okIdt = false →
      BootEvent.verifyStage BootStage.IDTLoaded ∈
        kernel_main bi heapOk okGdt okIdt okMem okHeap procOk okComplete →
      abortedAfter (kernel_main bi heapOk okGdt okIdt okMem okHeap procOk okComplete)
        BootStage.IDTLoaded) ∧
    (okMem = false →
      BootEvent.verifyStage BootStage.MemoryInitialized ∈
        kernel_main bi heapOk okGdt okIdt okMem okHeap procOk okComplete →
      abortedAfter (kernel_main bi heapOk okGdt okIdt okMem okHeap procOk okComplete)
        BootStage.MemoryInitialized) ∧
    (okHeap = false →
      BootEvent.verifyStage BootStage.HeapInitialized ∈
        kernel_main bi heapOk okGdt okIdt okMem okHeap procOk okComplete →
      abortedAfter (kernel_main bi heapOk okGdt okIdt okMem okHeap procOk okComplete)
        BootStage.HeapInitialized) ∧
    (okComplete = false →
      BootEvent.verifyStage BootStage.Complete ∈
        kernel_main bi heapOk okGdt okIdt okMem okHeap procOk okComplete →
      abortedAfter (kernel_main bi heapOk okGdt okIdt okMem okHeap procOk okComplete)
        BootStage.Complete) := by
  refine ⟨?_, ?_, ?_, ?_, ?_⟩
  · intro hflag _
    subst hflag
    cases heapOk <;>
      exact ⟨rfl, by simp [kernel_main], by simp [kernel_main], rfl⟩
  · intro hflag _
    subst hflag
    cases heapOk <;> cases okGdt <;>
      exact ⟨rfl, by simp [kernel_main], by simp [kernel_main], rfl⟩
  · intro hflag _
    subst hflag
    cases heapOk <;> cases okGdt <;> cases okIdt <;>
      exact ⟨rfl, by simp [kernel_main], by simp [kernel_main], rfl⟩
  · intro hflag _
    subst hflag
    cases heapOk <;> cases okGdt <;> cases okIdt <;> cases okMem <;>
      exact ⟨rfl, by simp [kernel_main], by simp [kernel_main], rfl⟩
  · intro hflag _
    subst hflag
    cases heapOk <;> cases okGdt <;> cases okIdt <;> cases okMem <;> cases okHeap <;>
        cases procOk <;>
      exact ⟨rfl, by simp [kernel_main], by simp [kernel_main], rfl⟩

/-- Witness for C3: a failing `GDTLoaded` verification on an otherwise
clean boot satisfies the hypotheses, and the boot aborts there. -/
theorem stage_verification_failure_aborts_witness :
    (false = false) ∧
    BootEvent.verifyStage BootStage.GDTLoaded ∈ kernel_main bi0 true false true true true true true ∧
    abortedAfter (kernel_main bi0 true false true true true true true) BootStage.GDTLoaded :=
  ⟨rfl, by decide,
    (stage_verification_failure_aborts bi0 true false true true true true true).1 rfl (by decide)⟩

/-- Claim C4: the panic handler dumps the boot driver's error ring,
printing the `Some` entries at indices `0..min(error_count, 32)` — hence
at most 32 entries, and entries beyond the first 32 slots are never read —
and its only outcome is `halted`. -/
theorem panic_dump_bounded (errors : List (Option String)) (error_count : Nat) :
    panicHandler errors error_count = PanicOutcome.halted (panicDump errors error_count) ∧
    (panicDump errors error_count).length ≤ 32 ∧
    panicDump errors (error_count + 32) = panicDump errors 32 := by
  refine ⟨rfl, ?_, ?_⟩
  · unfold panicDump
    split
    · exact le_trans (List.length_filterMap_le _ _) (by simp)
    · simp
  · have h : min (error_count + 32) 32 = 32 := by omega
    unfold panicDump
    rw [if_pos (by omega), if_pos (by omega), h, Nat.min_self]

/-- Claim C5 counterexample: on the clean boot, after filesystem
initialization `kernel_main` acquires and immediately releases the
`PROOF_STORAGE` lock, and performs no replay of the proof-storage log. -/
theorem no_replay_on_boot_cx :
    BootEvent.lockProofStorage ∈ cleanBoot bi0 ∧
    BootEvent.replayProofStorage ∉ cleanBoot bi0 := by
  decide

/-- Claim C5 (amended): after filesystem initialization the boot path
merely acquires and releases the `PROOF_STORAGE` lock; no recovery replay
from the superblock checkpoint is performed anywhere in `kernel_main`, on
any path. -/
theorem proof_storage_lock_only :
    (∀ (bi : BootInfo) (a b c d e f g : Bool),
      BootEvent.replayProofStorage ∉ kernel_main bi a b c d e f g) ∧
    (∀ bi : BootInfo, BootEvent.lockProofStorage ∈ cleanBoot bi) := by
  constructor
  · intro bi a b c d e f g
    cases a <;> cases b <;> cases c <;> cases d <;> cases e <;> cases f <;> cases g <;>
      simp [kernel_main]
  · intro bi
    simp [cleanBoot, kernel_main]

/-- Claim C6 counterexample: two different boot-loader inputs yield the
same framebuffer configuration at boot — the hard-coded 800×600, 32 bpp
kernel constant at physical address `0xfd000000` — so the framebuffer
configuration does not come from the boot loader's `BootInfo`. -/
theorem framebuffer_constant_cx :
    ¬ bi0 = bi1 ∧
    fbConfigs (cleanBoot bi0) = [(bootFramebufferInfo, 0xfd000000)] ∧
    fbConfigs (cleanBoot bi1) = [(bootFramebufferInfo, 0xfd000000)] ∧
    bootFramebufferInfo.width = 800 ∧
    bootFramebufferInfo.height = 600 := by
  decide

/-- Claim C6 (amended): the physical memory offset and memory map used to
build the memory manager are taken from the boot loader's `BootInfo`, but
the framebuffer configuration used at boot is fixed in the kernel
(800×600, pitch 3200, 32 bpp, physical buffer `0xfd000000`), independent
of the boot loader. -/
theorem boot_inputs_amended (bi : BootInfo) :
    BootEvent.memoryManagerNew bi.physical_memory_offset bi.memory_map ∈ cleanBoot bi ∧
    fbConfigs (cleanBoot bi) = [(bootFramebufferInfo, 0xfd000000)] :=
  ⟨by simp [cleanBoot, kernel_main], rfl⟩

/-- Claim C7: on every path through `kernel_main`, the stages passed to
`verify_stage_vmk` form a prefix (in order) of `GDTLoaded, IDTLoaded,
MemoryInitialized, HeapInitialized, Complete`; on the clean boot they are
exactly that sequence.  No stage is verified out of this order. -/
theorem boot_stage_order :
    (∀ (bi : BootInfo) (a b c d e f g : Bool), ∃ n,
      verifiedStages (kernel_main bi a b c d e f g) =
        List.take n [BootStage.GDTLoaded, BootStage.IDTLoaded, BootStage.MemoryInitialized,
          BootStage.HeapInitialized, BootStage.Complete]) ∧
    (∀ bi : BootInfo,
      verifiedStages (cleanBoot bi) =
        [BootStage.GDTLoaded, BootStage.IDTLoaded, BootStage.MemoryInitialized,
          BootStage.HeapInitialized, BootStage.Complete]) := by
  constructor
  · intro bi a b c d e f g
    cases a <;> cases b <;> cases c <;> cases d <;> cases e <;> cases f <;> cases g <;>
      first
        | exact ⟨0, rfl⟩
        | exact ⟨1, rfl⟩
        | exact ⟨2, rfl⟩
        | exact ⟨3, rfl⟩
        | exact ⟨4, rfl⟩
        | exact ⟨5, rfl⟩
  · intro bi
    exact rfl

/-- Claim C8: `GDTLoaded` and `MemoryInitialized` verification failures
panic without a `log_error` call, while `IDTLoaded`, `HeapInitialized`,
`Complete`, and init-process-creation failures call
`boot_verifier.log_error` before panicking. -/
theorem error_ring_logging_pattern :
    logErrors (kernel_main bi0 true false true true true true true) = [] ∧
    (kernel_main bi0 true false true true true true true).getLast? =
      some (BootEvent.panicked "GDT verification failed") ∧
    logErrors (kernel_main bi0 true true true false true true true) = [] ∧
    (kernel_main bi0 true true true false true true true).getLast? =
      some (BootEvent.panicked "Memory initialization verification failed") ∧
    logErrors (kernel_main bi0 true true false true true true true) =
      ["IDT verification failed"] ∧
    logErrors (kernel_main bi0 true true true true false true true) =
      ["Heap verification failed"] ∧
    logErrors (kernel_main bi0 true true true true true false true) =
      ["Final boot verification failed"] ∧
    logErrors (kernel_main bi0 true true true true true true false) =
      ["Final boot verification failed"] := by
  decide

/-- Claim C9: in the idle loop, `schedule()` runs exactly when
`current_ticks.saturating_sub(last_schedule) >= 10` (and the scheduler is
present); the saturating subtraction is total, equals zero exactly when
the tick counter reads at or below `last_schedule`, and in particular no
schedule happens then. -/
theorem idle_loop_schedule_guard (current_ticks last_schedule : Nat) :
    ((idleStep current_ticks last_schedule true).fst = true ↔
      10 ≤ saturating_sub current_ticks last_schedule) ∧
    (idleStep current_ticks last_schedule false).fst = false ∧
    (saturating_sub current_ticks last_schedule = 0 ↔ current_ticks ≤ last_schedule) ∧
    (last_schedule ≤ current_ticks ∨
      (idleStep current_ticks last_schedule true).fst = false) := by
  refine ⟨?_, ?_, ?_, ?_⟩
  · unfold idleStep
    split
    · case isTrue h => simpa using h
    · case isFalse h => simpa using h
  · unfold idleStep
    split <;> rfl
  · unfold saturating_sub
    omega
  · by_cases h : 10 ≤ saturating_sub current_ticks last_schedule
    · left
      unfold saturating_sub at h
      omega
    · right
      unfold idleStep
      rw [if_neg (by simpa using h)]

/-- Claim C10: `MEMORY_MANAGER` is set to `Some` before the init-process
block and nothing resets it in between, so the panic branch
`"Memory manager is None when creating init process"` is unreachable on
every path through `kernel_main`; on the clean boot the init process is
created. -/
theorem memory_manager_none_unreachable :
    (∀ (bi : BootInfo) (a b c d e f g : Bool),
      BootEvent.panicked "Memory manager is None when creating init process" ∉
        kernel_main bi a b c d e f g) ∧
    (∀ bi : BootInfo, BootEvent.createInitProcess ∈ cleanBoot bi) := by
  constructor
  · intro bi a b c d e f g
    cases a <;> cases b <;> cases c <;> cases d <;> cases e <;> cases f <;> cases g <;>
      simp [kernel_main]
  · intro bi
    simp [cleanBoot, kernel_main]

end Vekos
